import Mathlib

/-!
Shallow embedding of the ServiceStatusChangedNotifier core
(ServiceStatusChangedNotifier.cpp / ServiceStatusChangedNotifier.h).

Modelling conventions:
* `DWORD` is `Nat` (all values involved stay below 2^32; `|||` is `Nat.lor`,
  which agrees with 32-bit bitwise OR on such values).
* Nullable pointers become `Option`: a `PSC_NOTIFICATION_REGISTRATION` is
  `Option Nat` (`none` = nullptr), the `PSERVICE_NOTIFY` callback context and
  its `pContext` member are `Option`-valued.
* The `std::function` member `action_function` is modelled by its truthiness
  (`Bool`): the dispatcher only tests it for presence before the call, and the
  call expression on an empty `std::function` raises `std::bad_function_call`,
  which the embedding records as the outcome `DispatchResult.badFunctionCall`.
* OS behaviour (OpenSCManager, OpenService, LoadLibrary, GetProcAddress,
  GetLastError, the dynamically resolved subscribe primitive) is an explicit
  environment record, so the registry code is a deterministic function of the
  environment and its own state.
* `std::unordered_map<std::wstring, ServiceData>` is an association list with
  `operator[]` semantics: lookup of the first matching key,
  default-construction on missing key.
-/

/-- 32-bit unsigned values; all quantities used stay below 2^32. -/
abbrev DWORD := Nat

/-- A non-null `PSC_NOTIFICATION_REGISTRATION` pointer value. -/
abbrev Registration := Nat

/-- `Context` (ServiceStatusChangedNotifier.h): the per-instance data handed to
the static callback.  `action_function` records the truthiness of the stored
`std::function` (present / empty). -/
structure Context where
  notify_mask : DWORD
  action_function : Bool
  deriving DecidableEq, Repr

/-- The fields of the Windows `SERVICE_NOTIFY` buffer that the dispatcher
reads: the opaque `pContext` pointer (wired by `Start` to the shared
`Context`) and the `pszServiceNames` string. -/
structure SERVICE_NOTIFY where
  pContext : Option Context
  pszServiceNames : String
  deriving DecidableEq, Repr

/-- Observable outcome of one run of `NotifyCallbackFunc`:
* `noCall` — the function returned without touching the action callback
  (null buffer, null context, or the dispatch predicate was false);
* `invoked names flags` — the present user action callback was called with
  these arguments;
* `badFunctionCall` — the call expression
  `context->action_function(...)` was executed on an *empty* `std::function`,
  which throws `std::bad_function_call`. -/
inductive DispatchResult where
  | noCall
  | invoked (serviceNames : String) (dwNotify : DWORD)
  | badFunctionCall
  deriving DecidableEq, Repr

/-- `NotifyCallbackFunc` (ServiceStatusChangedNotifier.cpp, lines 35-53).
The C++ condition is
`context->action_function && (dwNotify | context->notify_mask) == context->notify_mask || dwNotify == 0`;
`&&` binds tighter than `||`, so it parses as
`(action_function && subset) || dwNotify == 0`, reproduced verbatim below
(Lean's `&&` also binds tighter than `||`).  Inside the branch the code
executes `context->action_function(notify_buffer->pszServiceNames, dwNotify)`,
whose outcome depends on whether the `std::function` is non-empty. -/
def NotifyCallbackFunc (dwNotify : DWORD) (pCallbackContext : Option SERVICE_NOTIFY) :
    DispatchResult :=
  match pCallbackContext with
  | none => .noCall
  | some notify_buffer =>
    match notify_buffer.pContext with
    | none => .noCall
    | some context =>
      if context.action_function && (dwNotify ||| context.notify_mask == context.notify_mask)
          || dwNotify == 0 then
        if context.action_function then
          .invoked notify_buffer.pszServiceNames dwNotify
        else
          .badFunctionCall
      else
        .noCall

/-- OS behaviour seen by one run of
`SubscribeServiceChangeNotificationsWrapper`:
whether `LoadLibrary(L"SecHost.dll")` succeeds, what `GetLastError` would
report if it fails, whether `GetProcAddress` resolves the symbol, and the
behaviour of the resolved `SubscribeServiceChangeNotifications` primitive —
its `DWORD` return status and the final content of its `_Out_`
`*pSubscription` parameter (`none` when the primitive leaves the
already-nulled output untouched). -/
structure WrapperEnv where
  LoadLibrary : Bool
  GetLastError : DWORD
  GetProcAddress : Bool
  SubscribeServiceChangeNotifications : DWORD × Option Registration

/-- `SubscribeServiceChangeNotificationsWrapper`
(ServiceStatusChangedNotifier.cpp, lines 175-213).  Returns the pair
(`return_value`, final `*pSubscription`).  `return_value` starts at 0 and
`*pSubscription` is nulled up front; the DLL is loaded, the symbol resolved,
the primitive called; if loading fails `return_value = GetLastError()`. -/
def SubscribeServiceChangeNotificationsWrapper (env : WrapperEnv) :
    DWORD × Option Registration :=
  let return_value : DWORD := 0
  let pSubscription : Option Registration := none
  if env.LoadLibrary then
    if env.GetProcAddress then
      (env.SubscribeServiceChangeNotifications.1, env.SubscribeServiceChangeNotifications.2)
    else
      (return_value, pSubscription)
  else
    (env.GetLastError, pSubscription)

/-- `ServiceData` (ServiceStatusChangedNotifier.h): the persistent per-service
entry.  `service_name` is the content of the `wchar_t service_name[MAX_PATH+1]`
buffer read as a string, `notify_buffer` the embedded `SERVICE_NOTIFY`,
`registration` the nullable registration handle, `system_error_code` the last
stored error code. -/
structure ServiceData where
  service_name : String
  notify_buffer : SERVICE_NOTIFY
  registration : Option Registration
  system_error_code : DWORD
  deriving DecidableEq, Repr

/-- The default-constructed `ServiceData` produced by `operator[]` on a missing
key: zero-filled name buffer (empty string), default `SERVICE_NOTIFY`, null
registration, `ERROR_SUCCESS` (= 0). -/
def ServiceData.initial : ServiceData :=
  { service_name := ""
    notify_buffer := { pContext := none, pszServiceNames := "" }
    registration := none
    system_error_code := 0 }

/-- `std::unordered_map<std::wstring, ServiceData>` as an association list. -/
abbrev ServiceDataMap := List (String × ServiceData)

/-- Map lookup (first matching key). -/
def mapFind : ServiceDataMap → String → Option ServiceData
  | [], _ => none
  | (k, v) :: rest, key => if k = key then some v else mapFind rest key

/-- `operator[]` followed by mutation: update the entry at `key` in place, or
append a mutated default-constructed entry when the key is absent. -/
def mapUpdate : ServiceDataMap → String → (ServiceData → ServiceData) → ServiceDataMap
  | [], key, f => [(key, f ServiceData.initial)]
  | (k, v) :: rest, key, f =>
    if k = key then (k, f v) :: rest else (k, v) :: mapUpdate rest key f

/-- `service_name.copy(buf, service_name.length())`: overwrites the first
`length` characters of the buffer with the name, writes no terminator, and
leaves any longer tail of the previous buffer content in place. -/
def copyInto (buf newName : String) : String :=
  newName ++ buf.drop newName.length

/-- OS behaviour seen by one `Start` call: whether `OpenSCManager` succeeds,
which service names `OpenService` can open, and the `WrapperEnv` governing the
subscribe wrapper invocation for each service. -/
structure Env where
  OpenSCManager : Bool
  OpenService : String → Bool
  wrapper : String → WrapperEnv

/-- Trace of externally visible registry operations. -/
inductive Event where
  | openSCManager (ok : Bool)
  | openService (name : String) (ok : Bool)
  | subscribe (name : String) (code : DWORD) (registration : Option Registration)
  | unsubscribe (registration : Registration)
  deriving DecidableEq, Repr

/-- The net effect of one successful loop body of `Start` on the map
(ServiceStatusChangedNotifier.cpp, lines 109-124): copy the name into the
entry's stable buffer, memset the notify buffer, wire `pContext` to the shared
context and `pszServiceNames` to the entry's own name buffer, then store the
subscribe wrapper's error code and registration handle. -/
def processService (env : Env) (ctx : Context) (name : String) (m : ServiceDataMap) :
    ServiceDataMap :=
  mapUpdate m name (fun sd =>
    let buf := copyInto sd.service_name name
    let r := SubscribeServiceChangeNotificationsWrapper (env.wrapper name)
    { service_name := buf
      notify_buffer := { pContext := some ctx, pszServiceNames := buf }
      registration := r.2
      system_error_code := r.1 })

/-- The `for (const auto &service_name : service_list)` loop of `Start`
(lines 104-126): open each service; on success run the loop body and record
the subscribe call, on failure skip the name and continue. -/
def startLoop (env : Env) (ctx : Context) :
    List String → ServiceDataMap → ServiceDataMap × List Event
  | [], m => (m, [])
  | name :: rest, m =>
    if env.OpenService name then
      let r := SubscribeServiceChangeNotificationsWrapper (env.wrapper name)
      let p := startLoop env ctx rest (processService env ctx name m)
      (p.1, Event.openService name true :: Event.subscribe name r.1 r.2 :: p.2)
    else
      let p := startLoop env ctx rest m
      (p.1, Event.openService name false :: p.2)

/-- The mutable state of one `ServiceStatusChangedNotifier` instance:
`service_data_map_` and `context_`. -/
structure NotifierState where
  service_data_map_ : ServiceDataMap
  context_ : Context
  deriving DecidableEq, Repr

/-- The default-constructed notifier: empty map, value-initialised context
(mask 0, empty `std::function`). -/
def NotifierState.initial : NotifierState :=
  { service_data_map_ := []
    context_ := { notify_mask := 0, action_function := false } }

/-- `Start` (ServiceStatusChangedNotifier.cpp, lines 87-128): store the mask
and action into the shared context, open the SCM; on SCM failure return with
no map change, otherwise run the per-service loop. -/
def Start (env : Env) (service_list : List String) (notify_mask : DWORD)
    (action_function : Bool) (s : NotifierState) : NotifierState × List Event :=
  let ctx : Context := { notify_mask := notify_mask, action_function := action_function }
  if env.OpenSCManager then
    let p := startLoop env ctx service_list s.service_data_map_
    ({ service_data_map_ := p.1, context_ := ctx }, Event.openSCManager true :: p.2)
  else
    ({ s with context_ := ctx }, [Event.openSCManager false])

/-- The loop of `Stop` (lines 133-138): for each entry with a non-null
registration, call the unsubscribe wrapper and null the handle. -/
def stopLoop : ServiceDataMap → ServiceDataMap × List Event
  | [] => ([], [])
  | (k, sd) :: rest =>
    let p := stopLoop rest
    match sd.registration with
    | some r => ((k, { sd with registration := none }) :: p.1, Event.unsubscribe r :: p.2)
    | none => ((k, sd) :: p.1, p.2)

/-- `Stop` (ServiceStatusChangedNotifier.cpp, lines 132-139). -/
def Stop (s : NotifierState) : NotifierState × List Event :=
  let p := stopLoop s.service_data_map_
  ({ s with service_data_map_ := p.1 }, p.2)

/-- `~ServiceStatusChangedNotifier() { Stop(); }`
(ServiceStatusChangedNotifier.h, line 41). -/
def destructor (s : NotifierState) : NotifierState × List Event :=
  Stop s

/-- The incoming-notification names of a trace, in order. -/
def openedNames (tr : List Event) : List String :=
  tr.filterMap fun e =>
    match e with
    | .openService n _ => some n
    | _ => none

/-- The subscribed names of a trace, in order. -/
def subscribedNames (tr : List Event) : List String :=
  tr.filterMap fun e =>
    match e with
    | .subscribe n _ _ => some n
    | _ => none

/-- Whether an event is a cancellation of a registration. -/
def Event.isUnsubscribe : Event → Bool
  | .unsubscribe _ => true
  | _ => false

/-! ### Helper lemmas about `stopLoop` -/

theorem stopLoop_fst (m : ServiceDataMap) :
    (stopLoop m).1 = m.map fun e => (e.1, { e.2 with registration := none }) := by
  induction m with
  | nil => rfl
  | cons e rest ih =>
    obtain ⟨k, sd⟩ := e
    obtain ⟨nm, nb, reg, ec⟩ := sd
    cases reg <;> simp [stopLoop, ih]

theorem stopLoop_snd (m : ServiceDataMap) :
    (stopLoop m).2 = m.filterMap fun e => e.2.registration.map Event.unsubscribe := by
  induction m with
  | nil => rfl
  | cons e rest ih =>
    obtain ⟨k, sd⟩ := e
    cases h : sd.registration <;> simp [stopLoop, h, ih]

theorem stopLoop_no_live (m : ServiceDataMap)
    (h : ∀ e ∈ m, e.2.registration = none) : stopLoop m = (m, []) := by
  induction m with
  | nil => rfl
  | cons e rest ih =>
    obtain ⟨k, sd⟩ := e
    have hh : sd.registration = none := h (k, sd) (by simp)
    have hr : ∀ x ∈ rest, x.2.registration = none := fun x hx => h x (by simp [hx])
    simp [stopLoop, hh, ih hr]

/-! ### Sample environments and states used by witnesses -/

/-- A `WrapperEnv` where `LoadLibrary` fails with last error 126
(ERROR_MOD_NOT_FOUND). -/
def wrapperEnvLoadFail : WrapperEnv :=
  { LoadLibrary := false, GetLastError := 126, GetProcAddress := false
    SubscribeServiceChangeNotifications := (0, none) }

/-- A `WrapperEnv` where the DLL loads but the symbol is missing. -/
def wrapperEnvNoSymbol : WrapperEnv :=
  { LoadLibrary := true, GetLastError := 0, GetProcAddress := false
    SubscribeServiceChangeNotifications := (0, none) }

/-- A `WrapperEnv` where the primitive runs, succeeds, and writes handle 7. -/
def wrapperEnvSuccess : WrapperEnv :=
  { LoadLibrary := true, GetLastError := 0, GetProcAddress := true
    SubscribeServiceChangeNotifications := (0, some 7) }

/-- A state with a single entry whose registration is already null. -/
def deadEntryState : NotifierState :=
  { service_data_map_ := [("Alpha", ServiceData.initial)]
    context_ := { notify_mask := 1, action_function := true } }

/-! ### Claim theorems: the dispatcher and the wrappers -/

/-- C1. The claim states the dispatch predicate as: invoke iff the action
callback is present AND (`raw_flags == 0` OR `raw_flags` is a bitwise subset
of the mask).  Because `&&` binds tighter than `||` in C++, the code's
condition is `(present && subset) || raw_flags == 0`: at `dwNotify = 0` with
an *absent* action callback the code still executes the call expression on
the empty `std::function` (which throws `std::bad_function_call`), where the
claim requires no invocation.  This theorem evaluates the embedded dispatcher
at that failing input. -/
theorem notifyCallbackFunc_zero_flags_absent_callback :
    NotifyCallbackFunc 0
      (some { pContext := some { notify_mask := 1, action_function := false },
              pszServiceNames := "Alpha" }) = .badFunctionCall := by
  decide

/-- C3. The claim states the dispatcher never invokes an absent action
callback and never lets a failure escape the OS callback boundary.  The null
buffer and null context are indeed dropped silently, but at `dwNotify = 0`
with an absent callback the code calls the empty `std::function`, which
throws `std::bad_function_call` across the OS boundary. -/
theorem notifyCallbackFunc_null_callback_called :
    NotifyCallbackFunc 7 none = .noCall ∧
    NotifyCallbackFunc 7 (some { pContext := none, pszServiceNames := "Beta" }) = .noCall ∧
    NotifyCallbackFunc 0
      (some { pContext := some { notify_mask := 0, action_function := false },
              pszServiceNames := "Beta" }) = .badFunctionCall := by
  refine ⟨rfl, rfl, ?_⟩
  decide

/-- C7. The subscribe wrapper: if `LoadLibrary` fails it returns
`GetLastError()` with a null registration handle; if the library loads but
`GetProcAddress` fails it returns a null handle with status 0; otherwise it
returns the primitive's status together with the handle the primitive wrote
through its output parameter. -/
theorem subscribeWrapper_error_paths (env : WrapperEnv) :
    (env.LoadLibrary = false →
      SubscribeServiceChangeNotificationsWrapper env = (env.GetLastError, none)) ∧
    (env.LoadLibrary = true → env.GetProcAddress = false →
      SubscribeServiceChangeNotificationsWrapper env = (0, none)) ∧
    (env.LoadLibrary = true → env.GetProcAddress = true →
      SubscribeServiceChangeNotificationsWrapper env =
        env.SubscribeServiceChangeNotifications) := by
  refine ⟨fun h => ?_, fun h1 h2 => ?_, fun h1 h2 => ?_⟩ <;>
    simp [SubscribeServiceChangeNotificationsWrapper, *]

/-- Witness for C7: the three paths of the wrapper at concrete environments. -/
theorem subscribeWrapper_error_paths_witness :
    SubscribeServiceChangeNotificationsWrapper wrapperEnvLoadFail = (126, none) ∧
    SubscribeServiceChangeNotificationsWrapper wrapperEnvNoSymbol = (0, none) ∧
    SubscribeServiceChangeNotificationsWrapper wrapperEnvSuccess = (0, some 7) :=
  ⟨(subscribeWrapper_error_paths wrapperEnvLoadFail).1 rfl,
   (subscribeWrapper_error_paths wrapperEnvNoSymbol).2.1 rfl rfl,
   (subscribeWrapper_error_paths wrapperEnvSuccess).2.2 rfl rfl⟩

/-! ### Claim theorems: Stop and the destructor -/

/-- C2. After `Stop`, every entry's registration handle is null; the map is
the old map with every handle cleared; and the cancel calls issued are
exactly one `unsubscribe` per entry that held a non-null handle, in map
order. -/
theorem stop_zero_live_handles (s : NotifierState) :
    (Stop s).1.service_data_map_ =
        s.service_data_map_.map (fun e => (e.1, { e.2 with registration := none })) ∧
    ((Stop s).1.service_data_map_.all fun e => e.2.registration == none) = true ∧
    (Stop s).2 = s.service_data_map_.filterMap
        (fun e => e.2.registration.map Event.unsubscribe) := by
  refine ⟨?_, ?_, ?_⟩
  · simpa [Stop] using stopLoop_fst s.service_data_map_
  · simp [Stop, stopLoop_fst, List.all_eq_true]
  · simpa [Stop] using stopLoop_snd s.service_data_map_

/-- C6. `Stop` is idempotent: on a state with no live registration handle it
is a no-op issuing no cancel call, and a second `Stop` right after a first
one issues no cancel call and leaves the state unchanged. -/
theorem stop_idempotent :
    (∀ s : NotifierState,
      (∀ e ∈ s.service_data_map_, e.2.registration = none) → Stop s = (s, [])) ∧
    (∀ s : NotifierState, Stop (Stop s).1 = ((Stop s).1, [])) := by
  constructor
  · intro s h
    simp [Stop, stopLoop_no_live _ h]
  · intro s
    have h : ∀ e ∈ (stopLoop s.service_data_map_).1, e.2.registration = none := by
      intro e he
      rw [stopLoop_fst] at he
      simp only [List.mem_map] at he
      obtain ⟨x, _, rfl⟩ := he
      rfl
    simp [Stop, stopLoop_no_live _ h]

/-- Witness for C6: `Stop` on a state whose only entry has a null handle is a
no-op with an empty cancel trace. -/
theorem stop_idempotent_witness : Stop deadEntryState = (deadEntryState, []) :=
  stop_idempotent.1 deadEntryState (by decide)

/-- C8. The destructor's effect equals `Stop`'s effect on every state (its
body is exactly `Stop()`), so no registration handle survives destruction. -/
theorem destructor_cancels_like_stop (s : NotifierState) :
    destructor s = Stop s ∧
    ((destructor s).1.service_data_map_.all fun e => e.2.registration == none) = true := by
  refine ⟨rfl, ?_⟩
  simp [destructor, Stop, stopLoop_fst, List.all_eq_true]

/-! ### Helper lemmas about the map and `startLoop` -/

theorem mapFind_mapUpdate_self (m : ServiceDataMap) (k : String)
    (f : ServiceData → ServiceData) :
    mapFind (mapUpdate m k f) k = some (f ((mapFind m k).getD ServiceData.initial)) := by
  induction m with
  | nil => simp [mapUpdate, mapFind]
  | cons e rest ih =>
    obtain ⟨k2, v⟩ := e
    by_cases h : k2 = k <;> simp [mapUpdate, mapFind, h, ih]

theorem mapFind_mapUpdate_ne (m : ServiceDataMap) (k key : String)
    (f : ServiceData → ServiceData) (h : k ≠ key) :
    mapFind (mapUpdate m k f) key = mapFind m key := by
  induction m with
  | nil => simp [mapUpdate, mapFind, h]
  | cons e rest ih =>
    obtain ⟨k2, v⟩ := e
    by_cases h2 : k2 = k <;> simp [mapUpdate, mapFind, h2, h, ih]

theorem startLoop_find_isSome (env : Env) (ctx : Context) (name : String) :
    ∀ (names : List String) (m : ServiceDataMap),
      ((mapFind (startLoop env ctx names m).1 name).isSome ↔
        ((mapFind m name).isSome ∨ (name ∈ names ∧ env.OpenService name = true)))
  | [], m => by simp [startLoop]
  | n :: rest, m => by
    by_cases hn : n = name
    · subst hn
      cases ho : env.OpenService n
      · rw [show startLoop env ctx (n :: rest) m =
            (let p := startLoop env ctx rest m
             (p.1, Event.openService n false :: p.2)) by simp [startLoop, ho]]
        simp only []
        rw [startLoop_find_isSome env ctx n rest m]
        simp [ho]
      · rw [show startLoop env ctx (n :: rest) m =
            (let r := SubscribeServiceChangeNotificationsWrapper (env.wrapper n)
             let p := startLoop env ctx rest (processService env ctx n m)
             (p.1, Event.openService n true :: Event.subscribe n r.1 r.2 :: p.2))
            by simp [startLoop, ho]]
        simp only []
        rw [startLoop_find_isSome env ctx n rest (processService env ctx n m)]
        simp [processService, mapFind_mapUpdate_self, ho]
    · cases ho : env.OpenService n
      · rw [show startLoop env ctx (n :: rest) m =
            (let p := startLoop env ctx rest m
             (p.1, Event.openService n false :: p.2)) by simp [startLoop, ho]]
        simp only []
        rw [startLoop_find_isSome env ctx name rest m]
        constructor
        · rintro (h1 | ⟨h2, h3⟩)
          · exact Or.inl h1
          · exact Or.inr ⟨List.mem_cons_of_mem n h2, h3⟩
        · rintro (h1 | ⟨h2, h3⟩)
          · exact Or.inl h1
          · rcases List.mem_cons.mp h2 with h4 | h4
            · exact absurd h4.symm hn
            · exact Or.inr ⟨h4, h3⟩
      · rw [show startLoop env ctx (n :: rest) m =
            (let r := SubscribeServiceChangeNotificationsWrapper (env.wrapper n)
             let p := startLoop env ctx rest (processService env ctx n m)
             (p.1, Event.openService n true :: Event.subscribe n r.1 r.2 :: p.2))
            by simp [startLoop, ho]]
        simp only []
        rw [startLoop_find_isSome env ctx name rest (processService env ctx n m)]
        rw [show mapFind (processService env ctx n m) name = mapFind m name from
          mapFind_mapUpdate_ne m n name _ hn]
        constructor
        · rintro (h1 | ⟨h2, h3⟩)
          · exact Or.inl h1
          · exact Or.inr ⟨List.mem_cons_of_mem n h2, h3⟩
        · rintro (h1 | ⟨h2, h3⟩)
          · exact Or.inl h1
          · rcases List.mem_cons.mp h2 with h4 | h4
            · exact absurd h4.symm hn
            · exact Or.inr ⟨h4, h3⟩

theorem startLoop_trace (env : Env) (ctx : Context) :
    ∀ (names : List String) (m : ServiceDataMap),
      openedNames (startLoop env ctx names m).2 = names ∧
      subscribedNames (startLoop env ctx names m).2 = names.filter env.OpenService
  | [], m => by simp [startLoop, openedNames, subscribedNames]
  | n :: rest, m => by
    cases ho : env.OpenService n <;>
      simpa [startLoop, openedNames, subscribedNames, ho, List.filter_cons] using
        startLoop_trace env ctx rest _

theorem startLoop_frame (env : Env) (ctx : Context) (name : String) :
    ∀ (names : List String) (m : ServiceDataMap), name ∉ names →
      mapFind (startLoop env ctx names m).1 name = mapFind m name
  | [], m, _ => by simp [startLoop]
  | n :: rest, m, h => by
    have hn : n ≠ name := fun e => h (e ▸ List.mem_cons_self n rest)
    have hr : name ∉ rest := fun e => h (List.mem_cons_of_mem n e)
    cases ho : env.OpenService n
    · simpa [startLoop, ho] using startLoop_frame env ctx name rest m hr
    · rw [show (startLoop env ctx (n :: rest) m).1 =
          (startLoop env ctx rest (processService env ctx n m)).1 by simp [startLoop, ho]]
      rw [startLoop_frame env ctx name rest _ hr]
      exact mapFind_mapUpdate_ne m n name _ hn

theorem startLoop_no_unsubscribe (env : Env) (ctx : Context) :
    ∀ (names : List String) (m : ServiceDataMap),
      ((startLoop env ctx names m).2.all fun e => !e.isUnsubscribe) = true
  | [], m => rfl
  | n :: rest, m => by
    cases ho : env.OpenService n <;>
      simpa [startLoop, ho, Event.isUnsubscribe] using
        startLoop_no_unsubscribe env ctx rest _

/-! ### Sample environments used by the Start witnesses -/

/-- An `Env` whose SCM open fails. -/
def envScmFail : Env :=
  { OpenSCManager := false, OpenService := fun _ => true
    wrapper := fun _ => wrapperEnvSuccess }

/-- An `Env` where the SCM opens and only the service "Alpha" can be opened. -/
def envDemo : Env :=
  { OpenSCManager := true, OpenService := fun n => n == "Alpha"
    wrapper := fun _ => wrapperEnvSuccess }

/-- A state holding one live registration for the service "Gamma". -/
def oneLiveState : NotifierState :=
  { service_data_map_ :=
      [("Gamma",
        { service_name := "Gamma"
          notify_buffer :=
            { pContext := some { notify_mask := 2, action_function := true }
              pszServiceNames := "Gamma" }
          registration := some 5
          system_error_code := 0 })]
    context_ := { notify_mask := 2, action_function := true } }

/-! ### Claim theorems: Start -/

/-- C4. Starting from a fresh registry, after `Start` a name has an entry in
the registry exactly when the SCM opened, the name appears in the supplied
list, and its service handle could be opened: every invalid name yields no
entry, every openable name yields one, each independently of the others
(`Start` is a total function, so no exception escapes). -/
theorem start_partial_success (env : Env) (names : List String) (mask : DWORD)
    (act : Bool) (name : String) :
    (mapFind ((Start env names mask act NotifierState.initial).1.service_data_map_)
        name).isSome
      ↔ (env.OpenSCManager = true ∧ name ∈ names ∧ env.OpenService name = true) := by
  cases hscm : env.OpenSCManager
  · simp [Start, hscm, NotifierState.initial, mapFind]
  · rw [show (Start env names mask act NotifierState.initial).1.service_data_map_ =
        (startLoop env { notify_mask := mask, action_function := act } names
          NotifierState.initial.service_data_map_).1 by simp [Start, hscm]]
    rw [startLoop_find_isSome]
    simp [NotifierState.initial, mapFind, hscm]

/-- Witness for C4: in `envDemo`, after `Start ["Alpha", "Beta"]` the openable
name "Alpha" has an entry and the unopenable name "Beta" has none. -/
theorem start_partial_success_witness :
    ((mapFind ((Start envDemo ["Alpha", "Beta"] 1 true
          NotifierState.initial).1.service_data_map_) "Alpha").isSome
        ↔ (envDemo.OpenSCManager = true ∧ "Alpha" ∈ ["Alpha", "Beta"] ∧
            envDemo.OpenService "Alpha" = true)) ∧
    ((mapFind ((Start envDemo ["Alpha", "Beta"] 1 true
          NotifierState.initial).1.service_data_map_) "Beta").isSome
        ↔ (envDemo.OpenSCManager = true ∧ "Beta" ∈ ["Alpha", "Beta"] ∧
            envDemo.OpenService "Beta" = true)) :=
  ⟨start_partial_success envDemo ["Alpha", "Beta"] 1 true "Alpha",
   start_partial_success envDemo ["Alpha", "Beta"] 1 true "Beta"⟩

/-- C5. When `OpenSCManager` fails, `Start` creates no entry (the map is
exactly what it was — empty when the registry was fresh), performs no service
open or subscribe call, and returns normally (it is a total function, so no
exception escapes). -/
theorem start_scm_failure (env : Env) (names : List String) (mask : DWORD)
    (act : Bool) (s : NotifierState) (h : env.OpenSCManager = false) :
    (Start env names mask act s).1.service_data_map_ = s.service_data_map_ ∧
    (Start env names mask act s).2 = [Event.openSCManager false] := by
  simp [Start, h]

/-- Witness for C5: `Start` under a failed SCM open leaves the fresh registry
empty. -/
theorem start_scm_failure_witness :
    (Start envScmFail ["Alpha"] 1 true NotifierState.initial).1.service_data_map_ = [] ∧
    (Start envScmFail ["Alpha"] 1 true NotifierState.initial).2 =
      [Event.openSCManager false] :=
  start_scm_failure envScmFail ["Alpha"] 1 true NotifierState.initial rfl

/-- C9. Within one `Start` call (with the SCM open succeeding), the service
open attempts occur exactly in the order of the supplied list, and the
subscribe calls occur exactly in the order of the openable names within it. -/
theorem start_processes_in_order (env : Env) (names : List String) (mask : DWORD)
    (act : Bool) (s : NotifierState) (h : env.OpenSCManager = true) :
    openedNames (Start env names mask act s).2 = names ∧
    subscribedNames (Start env names mask act s).2 = names.filter env.OpenService := by
  rw [show (Start env names mask act s).2 =
      Event.openSCManager true ::
        (startLoop env { notify_mask := mask, action_function := act } names
          s.service_data_map_).2 by simp [Start, h]]
  have := startLoop_trace env { notify_mask := mask, action_function := act } names
    s.service_data_map_
  simpa [openedNames, subscribedNames] using this

/-- Witness for C9: `Start ["Alpha", "Beta"]` opens "Alpha" then "Beta" in
order and subscribes exactly the openable "Alpha". -/
theorem start_processes_in_order_witness :
    openedNames (Start envDemo ["Alpha", "Beta"] 1 true NotifierState.initial).2 =
      ["Alpha", "Beta"] ∧
    subscribedNames (Start envDemo ["Alpha", "Beta"] 1 true NotifierState.initial).2 =
      ["Alpha", "Beta"].filter envDemo.OpenService :=
  start_processes_in_order envDemo ["Alpha", "Beta"] 1 true NotifierState.initial rfl

/-- C10. A later `Start` whose service list does not contain a name leaves
that name's entry (in particular its registration handle) exactly as it was,
and `Start` never issues an unsubscribe call. -/
theorem start_frames_absent_names (env : Env) (names : List String) (mask : DWORD)
    (act : Bool) (s : NotifierState) (name : String) (h : name ∉ names) :
    mapFind ((Start env names mask act s).1.service_data_map_) name =
      mapFind s.service_data_map_ name ∧
    ((Start env names mask act s).2.all fun e => !e.isUnsubscribe) = true := by
  cases hscm : env.OpenSCManager
  · simp [Start, hscm, Event.isUnsubscribe]
  · constructor
    · rw [show (Start env names mask act s).1.service_data_map_ =
          (startLoop env { notify_mask := mask, action_function := act } names
            s.service_data_map_).1 by simp [Start, hscm]]
      exact startLoop_frame env _ name names s.service_data_map_ h
    · rw [show (Start env names mask act s).2 =
          Event.openSCManager true ::
            (startLoop env { notify_mask := mask, action_function := act } names
              s.service_data_map_).2 by simp [Start, hscm]]
      simpa [Event.isUnsubscribe] using
        startLoop_no_unsubscribe env { notify_mask := mask, action_function := act }
          names s.service_data_map_

/-- Witness for C10: re-`Start`ing with `["Alpha"]` leaves the live "Gamma"
entry (handle 5) untouched and issues no unsubscribe. -/
theorem start_frames_absent_names_witness :
    mapFind ((Start envDemo ["Alpha"] 1 true oneLiveState).1.service_data_map_) "Gamma" =
      mapFind oneLiveState.service_data_map_ "Gamma" ∧
    ((Start envDemo ["Alpha"] 1 true oneLiveState).2.all fun e => !e.isUnsubscribe) = true :=
  start_frames_absent_names envDemo ["Alpha"] 1 true oneLiveState "Gamma" (by decide)
